import Mathlib

/-!
Verification of the financial-appraisal pipeline of `template.py`.

Each pipeline stage is shallowly embedded as a Lean function.  Python
numbers are modelled as exact rationals (`ℚ`); a nullable scalar is
`Option ℚ` (with `none` for Python `None`).  A Python dict produced by a
stage is modelled as an association list `List (String × Value)` in the
source's insertion order, so that key sets are part of the model.  Stage
inputs are modelled as well-shaped records (structures with the stage's
fixed key set, every scalar nullable); a dict argument whose emptiness is
observed by a guard is modelled as an `Option` of such a record, `none`
standing for the empty dict.  Statements that can raise (`None`
arithmetic, division by zero) are embedded in `Except Unit`, with
`.error ()` standing for the raised exception.
-/

namespace Template

/-- A Python value occurring in a stage's result dict. -/
inductive Value where
  | null : Value
  | num : ℚ → Value
  | str : String → Value
  | bool : Bool → Value
deriving DecidableEq, Repr

/-- A stage result: a Python dict in insertion order. -/
abbrev PyRec := List (String × Value)

/-- The key set of a result dict. -/
def keys {β : Type} (r : List (String × β)) : List String := r.map Prod.fst

/-- Python truthiness of a nullable number: `None` and `0` are falsy. -/
def truthy (x : Option ℚ) : Bool :=
  match x with
  | some q => decide (q ≠ 0)
  | none => false

/-- Using a nullable value in arithmetic: Python raises `TypeError` on `None`. -/
def pynum (x : Option ℚ) : Except Unit ℚ :=
  match x with
  | some q => .ok q
  | none => .error ()

/-- Python division: raises `ZeroDivisionError` on a zero denominator. -/
def pydiv (x y : ℚ) : Except Unit ℚ :=
  if y = 0 then .error () else .ok (x / y)

/-- Python `x or d` for a nullable number: `None` and `0` select the default. -/
def orD (x : Option ℚ) (d : ℚ) : ℚ :=
  match x with
  | some q => if q = 0 then d else q
  | none => d

/-- Python `x or 0` for a nullable number. -/
def or0 (x : Option ℚ) : ℚ := x.getD 0

/-- Round to the nearest integer, ties to even (Python `round`). -/
def roundHalfEven (q : ℚ) : ℤ :=
  if q - ⌊q⌋ < 1/2 then ⌊q⌋
  else if q - ⌊q⌋ > 1/2 then ⌊q⌋ + 1
  else if ⌊q⌋ % 2 = 0 then ⌊q⌋ else ⌊q⌋ + 1

/-- Python `round(q, d)` on exact rationals. -/
def pyRound (q : ℚ) (d : ℕ) : ℚ :=
  (roundHalfEven (q * 10 ^ d) : ℚ) / 10 ^ d

/-- Python `str.title()`: a letter is uppercased when it does not follow a
letter, lowercased otherwise. -/
def pyTitle (s : String) : String :=
  String.mk (s.toList.foldl
    (fun (acc : List Char × Bool) c =>
      if c.isAlpha then
        (acc.1 ++ [if acc.2 then c.toLower else c.toUpper], true)
      else
        (acc.1 ++ [c], false))
    ([], false)).1

/-! ### Well-shaped input records -/

/-- One accommodation entry inside a floor of `PropertyDetails`. -/
structure Accom where
  type : String
  affordable_housing : Option Bool
  area_sqft : Option ℚ
  area_m2 : Option ℚ
  price_per_unit : Option ℚ
  price_per_sqft : Option ℚ
  units : Option ℚ
deriving DecidableEq, Repr

/-- One floor of `PropertyDetails`. -/
structure Floor where
  floor_type : String
  accommodation_types : List Accom
deriving DecidableEq, Repr

/-- The nested `property_details` record of the input email. -/
structure PropertyDetails where
  asking_price : Option ℚ
  reduction_to_achieve_target_profit_percentage_gdv : Option ℚ
  floors : List Floor
  gdv : Option ℚ
deriving DecidableEq, Repr

/-- The email record handed to the pipeline. -/
structure Email where
  property_details : PropertyDetails
  deal_type : Option String
deriving DecidableEq, Repr

/-- One row of the GDV table (per-accommodation row or the totals row). -/
structure GdvRow where
  market_type : String
  build_type : String
  floor : String
  accommodation_type : String
  no_of_units : Option ℚ
  average_sqm_per_unit : Option ℚ
  average_sqft_per_unit : Option ℚ
  price_per_unit : Option ℚ
  price_per_sqft : Option ℚ
  amount : Option ℚ
deriving DecidableEq, Repr

/-- The fixed-schema record produced by `acquisition_costs`. -/
structure AcquisitionRec where
  asking_price : Option ℚ
  stamp_duty : Option ℚ
  sourcing_fee_percent : Option ℚ
  sourcing_fee : Option ℚ
  building_insurance_percent : Option ℚ
  building_insurance : Option ℚ
  legal_professional_costs_percent : Option ℚ
  legal_professional_costs : Option ℚ
  total_acquisition_costs : Option ℚ
deriving DecidableEq, Repr

/-- The fixed-schema record produced by `build_costs`. -/
structure BuildCostRec where
  NIA : Option ℚ
  net_to_gross : Option ℚ
  GIA : Option ℚ
  price_per_m2 : Option ℚ
  total_build_costs : Option ℚ
  cost_per_flat : Option ℚ
  landscaping_costs : Option ℚ
  build_contingency_percent : Option ℚ
  build_contingency_amount : Option ℚ
  build_costs_total : Option ℚ
deriving DecidableEq, Repr

/-- The fixed-schema record produced by `professional_fees`. -/
structure ProfFeesRec where
  architect_percent : Option ℚ
  architect_fee : Option ℚ
  town_planner_percent : Option ℚ
  town_planner_fee : Option ℚ
  structural_engineer_percent : Option ℚ
  structural_engineer_fee : Option ℚ
  building_control_per_unit : Option ℚ
  building_control_fee : Option ℚ
  project_management_per_month : Option ℚ
  project_management_months : Option ℚ
  project_management_fee : Option ℚ
  structural_warranty_percent : Option ℚ
  structural_warranty_fee : Option ℚ
  quantity_surveyor_per_month : Option ℚ
  quantity_surveyor_months : Option ℚ
  quantity_surveyor_fee : Option ℚ
  professional_fees_total : Option ℚ
deriving DecidableEq, Repr

/-- The fixed-schema record produced by `statutory_costs`. -/
structure StatutoryRec where
  nutrient_neutrality_per_unit : Option ℚ
  nutrient_neutrality : Option ℚ
  section_106 : Option ℚ
  cil : Option ℚ
  affordable : Option ℚ
  statutory_costs_total : Option ℚ
  statutory_costs_percent : Option ℚ
deriving DecidableEq, Repr

/-- The fixed-schema record produced by `total_development_costs`. -/
structure DevCostsRec where
  build_costs_total : Option ℚ
  professional_fees_total : Option ℚ
  statutory_costs_total : Option ℚ
  total_development_costs : Option ℚ
  build_costs_percent : Option ℚ
  professional_fees_percent : Option ℚ
  statutory_costs_percent : Option ℚ
deriving DecidableEq, Repr

/-- The fixed-schema record produced by `finance_costs`. -/
structure FinanceRec where
  land_ltv : Option ℚ
  land_lending_amount : Option ℚ
  land_interest_annual : Option ℚ
  land_interest_monthly : Option ℚ
  land_duration_months : Option ℚ
  land_interest_total : Option ℚ
  land_entry_fee_percent : Option ℚ
  land_entry_fee : Option ℚ
  land_exit_fee_percent : Option ℚ
  land_exit_fee : Option ℚ
  development_ltv : Option ℚ
  development_lending_amount : Option ℚ
  development_interest_annual : Option ℚ
  development_interest_monthly : Option ℚ
  development_duration_months : Option ℚ
  development_interest_total : Option ℚ
  development_entry_fee_percent : Option ℚ
  development_entry_fee : Option ℚ
  development_exit_fee_percent : Option ℚ
  development_exit_fee : Option ℚ
  finance_costs_total : Option ℚ
deriving DecidableEq, Repr

/-- The fixed-schema record produced by `lenders_other_costs`. -/
structure LendersRec where
  lenders_valuation : Option ℚ
  lenders_legal_costs : Option ℚ
  lenders_qs_initial : Option ℚ
  lenders_qs_ongoing_per_month : Option ℚ
  lenders_qs_ongoing_months : Option ℚ
  lenders_qs_ongoing_total : Option ℚ
  lenders_other_costs_total : Option ℚ
deriving DecidableEq, Repr

/-- The fixed-schema record produced by `total_funding_costs`. -/
structure FundingCostsRec where
  finance_costs_total : Option ℚ
  lenders_other_costs_total : Option ℚ
  funding_costs_total : Option ℚ
  finance_costs_percent : Option ℚ
  lenders_costs_percent : Option ℚ
deriving DecidableEq, Repr

/-- The fixed-schema record produced by `selling_costs`. -/
structure SellingRec where
  marketing_costs : Option ℚ
  agent_fee_percent : Option ℚ
  agent_fee : Option ℚ
  legal_fees_per_unit : Option ℚ
  legal_fees_from_units : Option ℚ
  legal_fees_percent : Option ℚ
  legal_fees_from_percent : Option ℚ
  legal_fees_total : Option ℚ
  selling_costs_total : Option ℚ
  selling_costs_percent : Option ℚ
deriving DecidableEq, Repr

/-- The fixed-schema record produced by `total_costs`. -/
structure TotalCostsRec where
  acquisition_costs : Option ℚ
  development_costs : Option ℚ
  funding_costs : Option ℚ
  selling_costs : Option ℚ
  total_costs : Option ℚ
  acquisition_costs_percent : Option ℚ
  development_costs_percent : Option ℚ
  funding_costs_percent : Option ℚ
  selling_costs_percent : Option ℚ
deriving DecidableEq, Repr

/-- The fixed-schema record produced by `net_profit_analysis`. -/
structure NetProfitRec where
  net_profit : Option ℚ
  net_profit_on_gdv : Option ℚ
  net_profit_on_costs : Option ℚ
deriving DecidableEq, Repr

/-- The fixed-schema record produced by `lending_analysis`. -/
structure LendingRec where
  ltc_criteria : Option ℚ
  ltgdv_criteria : Option ℚ
  max_loan_ltc : Option ℚ
  max_loan_ltgdv : Option ℚ
  maximum_loan_amount : Option ℚ
  reduce_costs_by : Option ℚ
  reduce_loan_by : Option ℚ
  max_lenders_land_advance_day1 : Option ℚ
  own_equity_needed_day1 : Option ℚ
  shortfall_equity_needed_day1 : Option ℚ
  return_on_own_funds : Option ℚ
  return_on_own_funds_per_annum : Option ℚ
deriving DecidableEq, Repr

/-- The fixed-schema record produced by `post_development_analysis`. -/
structure PostDevRec where
  rental_income_per_annum : Option ℚ
  service_charges_percent : Option ℚ
  service_charges : Option ℚ
  net_rental_income : Option ℚ
  term_loan_ltv : Option ℚ
  term_loan_amount : Option ℚ
  term_loan_interest_rate : Option ℚ
  interest_on_term_loan : Option ℚ
  net_cashflow_per_annum : Option ℚ
deriving DecidableEq, Repr

/-- The own/borrow/total split of one Funding Workings line. -/
structure FundLine where
  own : Option ℚ
  borrow : Option ℚ
  total : Option ℚ
deriving DecidableEq, Repr

/-- The `timeline_months` dict handed to the finance stages: a missing key
falls back to the stage's default duration. -/
structure TimelineRec where
  land_duration : Option ℚ
  development_duration : Option ℚ
deriving DecidableEq, Repr

/-! ### Stage 1: deal_appraisal -/

/-- Key set of the `deal_appraisal` result, in insertion order. -/
def dealAppraisalKeys : List String :=
  ["asking_price", "reduction_to_achieve_target_profit_percentage_gdv",
   "asking_price_percent", "reduction_to_achieve_target_profit_percentage_gdv_percent",
   "target_strike_price", "target_strike_price_percent"]

/-- The guard-failure record of `deal_appraisal`: every key set to `None`. -/
def nullDealAppraisal : PyRec := dealAppraisalKeys.map (fun k => (k, Value.null))

/-- Embedding of `deal_appraisal` (template.py lines 1-25).  The two
divisions by `asking_price` raise `ZeroDivisionError` when it is zero. -/
def deal_appraisal (email : Email) : Except Unit PyRec :=
  match email.property_details.asking_price,
        email.property_details.reduction_to_achieve_target_profit_percentage_gdv with
  | some askingPrice, some reduction =>
    match pydiv reduction askingPrice with
    | .error e => .error e
    | .ok reductionPercent =>
      match pydiv (askingPrice - reduction) askingPrice with
      | .error e => .error e
      | .ok strikePercent =>
        .ok [("asking_price", .num askingPrice),
             ("reduction_to_achieve_target_profit_percentage_gdv", .num reduction),
             ("asking_price_percent", .num 100),
             ("reduction_to_achieve_target_profit_percentage_gdv_percent", .num reductionPercent),
             ("target_strike_price", .num (askingPrice - reduction)),
             ("target_strike_price_percent", .num strikePercent)]
  | _, _ => .ok nullDealAppraisal

/-! ### Stage 2: gross_development_value -/

/-- The `accom_type_map` dict of the GDV builder. -/
def accomTypeMap (t : String) : Option String :=
  if t = "studio" then some "Studio Flat"
  else if t = "1-bed" then some "1 Bed Flat"
  else if t = "2-bed" then some "2 Bed Flat"
  else if t = "3-bed" then some "3 Bed Flat"
  else if t = "4-bed" then some "4 Bed Flat"
  else if t = "5-bed" then some "5 Bed Flat"
  else none

/-- Area cross-derivation of the GDV builder: derive the missing (falsy)
area unit from the other via the fixed conversion factors. -/
def deriveAreas (area_sqft area_m2 : Option ℚ) : Option ℚ × Option ℚ :=
  if truthy area_sqft && !(truthy area_m2) then
    match area_sqft with
    | some s => (some s, some (pyRound (s * 0.092903) 1))
    | none => (area_sqft, area_m2)
  else if truthy area_m2 && !(truthy area_sqft) then
    match area_m2 with
    | some m => (some (pyRound (m * 10.764) 1), some m)
    | none => (area_sqft, area_m2)
  else (area_sqft, area_m2)

/-- Price-per-sqft derivation of the GDV builder. -/
def derivePricePerSqft (price_per_unit price_per_sqft area_sqft : Option ℚ) : Option ℚ :=
  if truthy price_per_unit && truthy area_sqft && !(truthy price_per_sqft) then
    match price_per_unit, area_sqft with
    | some p, some s => some (pyRound (p / s) 2)
    | _, _ => price_per_sqft
  else price_per_sqft

/-- The per-accommodation row built by the GDV builder's inner loop
(template.py lines 45-91). -/
def makeRow (floorType : String) (a : Accom) : GdvRow :=
  let market_type :=
    if a.affordable_housing.getD false then "Residential - Affordable"
    else "Residential - Open Market"
  let areas := deriveAreas a.area_sqft a.area_m2
  let price_per_sqft := derivePricePerSqft a.price_per_unit a.price_per_sqft areas.1
  let units := a.units.getD 0
  let amount : Option ℚ :=
    match a.price_per_unit with
    | some p => if p ≠ 0 ∧ units ≠ 0 then some (p * units) else none
    | none => none
  let accom_type := (accomTypeMap a.type.toLower).getD (pyTitle a.type)
  { market_type := market_type
    build_type := "New Build"
    floor := floorType
    accommodation_type := accom_type
    no_of_units := some units
    average_sqm_per_unit := areas.2
    average_sqft_per_unit := areas.1
    price_per_unit := a.price_per_unit
    price_per_sqft := price_per_sqft
    amount := amount }

/-- The synthetic totals row appended by the GDV builder
(template.py lines 94-128). -/
def totalsRow (rows : List GdvRow) : GdvRow :=
  let total_units :=
    ((rows.filter (fun r => truthy r.no_of_units)).map (fun r => or0 r.no_of_units)).sum
  let total_amount :=
    ((rows.filter (fun r => truthy r.amount)).map (fun r => or0 r.amount)).sum
  let weighted_sqm_sum :=
    ((rows.filter (fun r => truthy r.no_of_units && truthy r.average_sqm_per_unit)).map
      (fun r => or0 r.no_of_units * or0 r.average_sqm_per_unit)).sum
  let weighted_sqft_sum :=
    ((rows.filter (fun r => truthy r.no_of_units && truthy r.average_sqft_per_unit)).map
      (fun r => or0 r.no_of_units * or0 r.average_sqft_per_unit)).sum
  { market_type := "Residential - Total"
    build_type := "New Build"
    floor := ""
    accommodation_type := ""
    no_of_units := some total_units
    average_sqm_per_unit := if total_units ≠ 0 then some (pyRound weighted_sqm_sum 1) else none
    average_sqft_per_unit := if total_units ≠ 0 then some (pyRound weighted_sqft_sum 1) else none
    price_per_unit :=
      if total_units ≠ 0 ∧ total_amount ≠ 0 then some (pyRound total_amount 0) else none
    price_per_sqft :=
      if weighted_sqft_sum ≠ 0 ∧ total_amount ≠ 0 then some (pyRound total_amount 2) else none
    amount := some total_amount }

/-- Embedding of `gross_development_value` (template.py lines 29-130). -/
def gross_development_value (email : Email) : List GdvRow :=
  let floors_data := email.property_details.floors
  if floors_data = [] then []
  else
    let gdv_rows := floors_data.flatMap
      (fun f => f.accommodation_types.map (makeRow (pyTitle f.floor_type ++ " Floor")))
    if gdv_rows = [] then gdv_rows
    else gdv_rows ++ [totalsRow gdv_rows]

/-! ### Stage 3: acquisition_costs -/

/-- Key set of the `acquisition_costs` result, in insertion order. -/
def acquisitionKeys : List String :=
  ["asking_price", "stamp_duty", "sourcing_fee_percent", "sourcing_fee",
   "building_insurance_percent", "building_insurance",
   "legal_professional_costs_percent", "legal_professional_costs",
   "total_acquisition_costs"]

/-- The guard-failure record of `acquisition_costs`. -/
def nullAcquisition : PyRec := acquisitionKeys.map (fun k => (k, Value.null))

/-- Embedding of `acquisition_costs` (template.py lines 132-165); the guard
is the truthiness of the asking price. -/
def acquisition_costs (email : Email) : PyRec :=
  match email.property_details.asking_price with
  | some askingPrice =>
    if askingPrice = 0 then nullAcquisition
    else
      let sourcing_fee := 0.02 * askingPrice
      let building_insurance := 0.0075 * askingPrice
      let legal_professional_costs := 0.005 * askingPrice
      let total := askingPrice + 158002 + sourcing_fee + building_insurance
        + legal_professional_costs
      [("asking_price", .num askingPrice),
       ("stamp_duty", .num 158002),
       ("sourcing_fee_percent", .num 0.02),
       ("sourcing_fee", .num sourcing_fee),
       ("building_insurance_percent", .num 0.0075),
       ("building_insurance", .num building_insurance),
       ("legal_professional_costs_percent", .num 0.005),
       ("legal_professional_costs", .num legal_professional_costs),
       ("total_acquisition_costs", .num total)]
  | none => nullAcquisition

/-! ### Stage 4: build_costs -/

/-- Key set of the `build_costs` result, in insertion order. -/
def buildCostKeys : List String :=
  ["NIA", "net_to_gross", "GIA", "price_per_m2", "total_build_costs",
   "cost_per_flat", "landscaping_costs", "build_contingency_percent",
   "build_contingency_amount", "build_costs_total"]

/-- The guard-failure record of `build_costs`. -/
def nullBuildCosts : PyRec := buildCostKeys.map (fun k => (k, Value.null))

/-- Embedding of `build_costs` (template.py lines 168-217); the guard is
the truthiness of the totals row's unit count and average m² (the GDV
amount is not consulted).  The acquisition record is an unused argument,
as in the source. -/
def build_costs (gdv_dict : List GdvRow) (_acquisition_dict : AcquisitionRec) : PyRec :=
  match gdv_dict.getLast? with
  | some last =>
    match last.no_of_units, last.average_sqm_per_unit with
    | some units, some sqm =>
      if units = 0 ∨ sqm = 0 then nullBuildCosts
      else
        let nia := units * sqm
        let gia := (1 + 0.2) * nia
        let total_build_costs := gia * 1200
        let cost_per_flat := total_build_costs / units
        let landscaping := 0
        let contingency := (total_build_costs + landscaping) * 0.1
        let build_costs_total := total_build_costs + landscaping + contingency
        [("NIA", .num nia),
         ("net_to_gross", .num 0.2),
         ("GIA", .num gia),
         ("price_per_m2", .num 1200),
         ("total_build_costs", .num total_build_costs),
         ("cost_per_flat", .num cost_per_flat),
         ("landscaping_costs", .num landscaping),
         ("build_contingency_percent", .num 0.1),
         ("build_contingency_amount", .num contingency),
         ("build_costs_total", .num build_costs_total)]
    | _, _ => nullBuildCosts
  | none => nullBuildCosts

/-! ### Stage 5: professional_fees -/

/-- Key set of the `professional_fees` result, in insertion order. -/
def profFeesKeys : List String :=
  ["architect_percent", "architect_fee", "town_planner_percent", "town_planner_fee",
   "structural_engineer_percent", "structural_engineer_fee",
   "building_control_per_unit", "building_control_fee",
   "project_management_per_month", "project_management_months", "project_management_fee",
   "structural_warranty_percent", "structural_warranty_fee",
   "quantity_surveyor_per_month", "quantity_surveyor_months", "quantity_surveyor_fee",
   "professional_fees_total"]

/-- The guard-failure record of `professional_fees`. -/
def nullProfFees : PyRec := profFeesKeys.map (fun k => (k, Value.null))

/-- Embedding of `professional_fees` (template.py lines 220-299).  The guard
is the truthiness of the GDV totals amount.  On the success path the code
multiplies the totals row's unit count and adds the acquisition total
without null checks, so either being `None` raises `TypeError`. -/
def professional_fees (gdv_dict : List GdvRow) (acquisition_dict : AcquisitionRec)
    (build_cost_dict : Option BuildCostRec) (timeline_months : ℚ) : Except Unit PyRec :=
  match gdv_dict.getLast? with
  | some last =>
    match last.amount with
    | some gdv_total =>
      if gdv_total = 0 then .ok nullProfFees
      else
        match pynum last.no_of_units with
        | .error e => .error e
        | .ok total_units =>
          let architect_fee := gdv_total * 0.01
          let town_planner_fee := gdv_total * 0.001
          let structural_engineer_fee := gdv_total * 0.005
          let building_control_fee := total_units * 1500
          let project_management_fee := 7000 * timeline_months
          let warrantyE : Except Unit (Option ℚ) :=
            match build_cost_dict with
            | some bcd =>
              if truthy bcd.build_costs_total then
                match pynum bcd.build_costs_total with
                | .error e => .error e
                | .ok bct =>
                  match pynum acquisition_dict.total_acquisition_costs with
                  | .error e => .error e
                  | .ok tac => .ok (some ((bct + tac) * 0.01))
              else .ok none
            | none => .ok none
          match warrantyE with
          | .error e => .error e
          | .ok warranty =>
            let quantity_surveyor_fee := 1200 * (timeline_months + 1)
            let total := architect_fee + town_planner_fee + structural_engineer_fee
              + building_control_fee + project_management_fee + quantity_surveyor_fee
              + warranty.getD 0
            .ok [("architect_percent", .num 0.01),
                 ("architect_fee", .num architect_fee),
                 ("town_planner_percent", .num 0.001),
                 ("town_planner_fee", .num town_planner_fee),
                 ("structural_engineer_percent", .num 0.005),
                 ("structural_engineer_fee", .num structural_engineer_fee),
                 ("building_control_per_unit", .num 1500),
                 ("building_control_fee", .num building_control_fee),
                 ("project_management_per_month", .num 7000),
                 ("project_management_months", .num timeline_months),
                 ("project_management_fee", .num project_management_fee),
                 ("structural_warranty_percent", .num 0.01),
                 ("structural_warranty_fee",
                    match warranty with | some w => .num w | none => .null),
                 ("quantity_surveyor_per_month", .num 1200),
                 ("quantity_surveyor_months", .num (timeline_months + 1)),
                 ("quantity_surveyor_fee", .num quantity_surveyor_fee),
                 ("professional_fees_total", .num total)]
    | none => .ok nullProfFees
  | none => .ok nullProfFees

/-! ### Stage 6: statutory_costs -/

/-- Key set of the `statutory_costs` result, in insertion order. -/
def statutoryKeys : List String :=
  ["nutrient_neutrality_per_unit", "nutrient_neutrality", "section_106", "cil",
   "affordable", "statutory_costs_total", "statutory_costs_percent"]

/-- The guard-failure record of `statutory_costs`. -/
def nullStatutory : PyRec := statutoryKeys.map (fun k => (k, Value.null))

/-- Embedding of `statutory_costs` (template.py lines 301-344); the guard is
the truthiness of the totals row's unit count (the GDV amount only gates the
percentage field). -/
def statutory_costs (gdv_dict : List GdvRow) : PyRec :=
  match gdv_dict.getLast? with
  | some last =>
    match last.no_of_units with
    | some total_units =>
      if total_units = 0 then nullStatutory
      else
        let nutrient_neutrality := total_units * 5000
        let total := nutrient_neutrality + 0 + 150000 + 0
        let pct : Value :=
          match last.amount with
          | some amt => if amt ≠ 0 then .num (total / amt) else .null
          | none => .null
        [("nutrient_neutrality_per_unit", .num 5000),
         ("nutrient_neutrality", .num nutrient_neutrality),
         ("section_106", .num 0),
         ("cil", .num 150000),
         ("affordable", .num 0),
         ("statutory_costs_total", .num total),
         ("statutory_costs_percent", pct)]
    | none => nullStatutory
  | none => nullStatutory

/-! ### Stage 7: total_development_costs -/

/-- Key set of the `total_development_costs` result, in insertion order. -/
def devCostsKeys : List String :=
  ["build_costs_total", "professional_fees_total", "statutory_costs_total",
   "total_development_costs", "build_costs_percent", "professional_fees_percent",
   "statutory_costs_percent"]

/-- The guard-failure record of `total_development_costs`. -/
def nullDevCosts : PyRec := devCostsKeys.map (fun k => (k, Value.null))

/-- Embedding of `total_development_costs` (template.py lines 346-382).  The
three percentage divisions raise `ZeroDivisionError` when the sum is zero. -/
def total_development_costs (build_cost_dict : Option BuildCostRec)
    (prof_fees_dict : Option ProfFeesRec) (statutory_dict : Option StatutoryRec) :
    Except Unit PyRec :=
  match build_cost_dict, prof_fees_dict, statutory_dict with
  | some bcd, some pfd, some std =>
    match bcd.build_costs_total, pfd.professional_fees_total, std.statutory_costs_total with
    | some b, some p, some s =>
      let total := b + p + s
      match pydiv b total, pydiv p total, pydiv s total with
      | .ok bp, .ok pp, .ok sp =>
        .ok [("build_costs_total", .num b),
             ("professional_fees_total", .num p),
             ("statutory_costs_total", .num s),
             ("total_development_costs", .num total),
             ("build_costs_percent", .num bp),
             ("professional_fees_percent", .num pp),
             ("statutory_costs_percent", .num sp)]
      | _, _, _ => .error ()
    | _, _, _ => .ok nullDevCosts
  | _, _, _ => .ok nullDevCosts

/-! ### Stage 8: profit_pre_funding_costs -/

/-- Key set of the `profit_pre_funding_costs` result, in insertion order. -/
def profitPreKeys : List String :=
  ["gdv", "total_acquisition_costs", "total_development_costs",
   "total_costs_pre_funding", "profit_pre_funding_costs",
   "profit_margin_on_gdv", "profit_margin_on_costs"]

/-- The guard-failure record of `profit_pre_funding_costs`. -/
def nullProfitPre : PyRec := profitPreKeys.map (fun k => (k, Value.null))

/-- Embedding of `profit_pre_funding_costs` (template.py lines 385-425).  The
margin divisions raise `ZeroDivisionError` on a zero GDV or zero pre-funding
cost. -/
def profit_pre_funding_costs (gdv_dict : List GdvRow)
    (acquisition_dict : Option AcquisitionRec) (dev_costs_dict : Option DevCostsRec) :
    Except Unit PyRec :=
  match gdv_dict.getLast?, acquisition_dict, dev_costs_dict with
  | some last, some acqd, some devd =>
    match last.amount, acqd.total_acquisition_costs, devd.total_development_costs with
    | some gdv, some tac, some tdc =>
      let pre := tac + tdc
      let profit := gdv - pre
      match pydiv profit gdv, pydiv profit pre with
      | .ok mGdv, .ok mCosts =>
        .ok [("gdv", .num gdv),
             ("total_acquisition_costs", .num tac),
             ("total_development_costs", .num tdc),
             ("total_costs_pre_funding", .num pre),
             ("profit_pre_funding_costs", .num profit),
             ("profit_margin_on_gdv", .num mGdv),
             ("profit_margin_on_costs", .num mCosts)]
      | _, _ => .error ()
    | _, _, _ => .ok nullProfitPre
  | _, _, _ => .ok nullProfitPre

/-! ### Stage 9: finance_costs -/

/-- Key set of the `finance_costs` result, in insertion order. -/
def financeKeys : List String :=
  ["land_ltv", "land_lending_amount", "land_interest_annual", "land_interest_monthly",
   "land_duration_months", "land_interest_total", "land_entry_fee_percent",
   "land_entry_fee", "land_exit_fee_percent", "land_exit_fee", "development_ltv",
   "development_lending_amount", "development_interest_annual",
   "development_interest_monthly", "development_duration_months",
   "development_interest_total", "development_entry_fee_percent",
   "development_entry_fee", "development_exit_fee_percent", "development_exit_fee",
   "finance_costs_total"]

/-- The guard-failure record of `finance_costs`. -/
def nullFinance : PyRec := financeKeys.map (fun k => (k, Value.null))

/-- Embedding of `finance_costs` (template.py lines 427-513). -/
def finance_costs (acquisition_dict : Option AcquisitionRec)
    (dev_costs_dict : Option DevCostsRec) (timeline_months : Option TimelineRec) : PyRec :=
  match acquisition_dict, dev_costs_dict with
  | some acqd, some devd =>
    match acqd.total_acquisition_costs, devd.total_development_costs with
    | some tac, some tdc =>
      let tl := timeline_months.getD ⟨some 18, some 12⟩
      let land_lending_amount := tac * 0.5
      let land_interest_monthly := (0.1 : ℚ) / 12
      let land_duration := tl.land_duration.getD 18
      let land_interest_total := land_lending_amount * land_interest_monthly * land_duration
      let land_entry_fee := land_lending_amount * 0.02
      let land_exit_fee := land_lending_amount * 0.01
      let development_lending_amount := tdc * 1
      let development_interest_monthly := (0.1 : ℚ) / 12
      let development_duration := tl.development_duration.getD 12
      let development_interest_total :=
        development_lending_amount * development_interest_monthly * development_duration * 0.5
      let development_entry_fee := development_lending_amount * 0.02
      let development_exit_fee := development_lending_amount * 0.01
      let total := land_interest_total + land_entry_fee + land_exit_fee
        + development_interest_total + development_entry_fee + development_exit_fee
      [("land_ltv", .num 0.5),
       ("land_lending_amount", .num land_lending_amount),
       ("land_interest_annual", .num 0.1),
       ("land_interest_monthly", .num land_interest_monthly),
       ("land_duration_months", .num land_duration),
       ("land_interest_total", .num land_interest_total),
       ("land_entry_fee_percent", .num 0.02),
       ("land_entry_fee", .num land_entry_fee),
       ("land_exit_fee_percent", .num 0.01),
       ("land_exit_fee", .num land_exit_fee),
       ("development_ltv", .num 1),
       ("development_lending_amount", .num development_lending_amount),
       ("development_interest_annual", .num 0.1),
       ("development_interest_monthly", .num development_interest_monthly),
       ("development_duration_months", .num development_duration),
       ("development_interest_total", .num development_interest_total),
       ("development_entry_fee_percent", .num 0.02),
       ("development_entry_fee", .num development_entry_fee),
       ("development_exit_fee_percent", .num 0.01),
       ("development_exit_fee", .num development_exit_fee),
       ("finance_costs_total", .num total)]
    | _, _ => nullFinance
  | _, _ => nullFinance

/-! ### Stage 10: lenders_other_costs -/

/-- Key set of the `lenders_other_costs` result, in insertion order. -/
def lendersKeys : List String :=
  ["lenders_valuation", "lenders_legal_costs", "lenders_qs_initial",
   "lenders_qs_ongoing_per_month", "lenders_qs_ongoing_months",
   "lenders_qs_ongoing_total", "lenders_other_costs_total"]

/-- Embedding of `lenders_other_costs` (template.py lines 516-544): no guard,
always computable from the defaults. -/
def lenders_other_costs (timeline_months : Option TimelineRec) : PyRec :=
  let tl := timeline_months.getD ⟨none, some 12⟩
  let qs_months := tl.development_duration.getD 12 + 1
  let qs_total := 1140 * qs_months
  let total := 10000 + 15000 + 5000 + qs_total
  [("lenders_valuation", .num 10000),
   ("lenders_legal_costs", .num 15000),
   ("lenders_qs_initial", .num 5000),
   ("lenders_qs_ongoing_per_month", .num 1140),
   ("lenders_qs_ongoing_months", .num qs_months),
   ("lenders_qs_ongoing_total", .num qs_total),
   ("lenders_other_costs_total", .num total)]

/-! ### Stage 11: total_funding_costs -/

/-- Key set of the `total_funding_costs` result, in insertion order. -/
def fundingCostsKeys : List String :=
  ["finance_costs_total", "lenders_other_costs_total", "funding_costs_total",
   "finance_costs_percent", "lenders_costs_percent"]

/-- The guard-failure record of `total_funding_costs`. -/
def nullFundingCosts : PyRec := fundingCostsKeys.map (fun k => (k, Value.null))

/-- Embedding of `total_funding_costs` (template.py lines 546-579); the
percentage breakdown is nulled rather than divided when the total is not
positive. -/
def total_funding_costs (finance_dict : Option FinanceRec)
    (lenders_dict : Option LendersRec) : PyRec :=
  match finance_dict, lenders_dict with
  | some find, some lendd =>
    match find.finance_costs_total, lendd.lenders_other_costs_total with
    | some f, some l =>
      let total := f + l
      let fp : Value := if total > 0 then .num (f / total) else .null
      let lp : Value := if total > 0 then .num (l / total) else .null
      [("finance_costs_total", .num f),
       ("lenders_other_costs_total", .num l),
       ("funding_costs_total", .num total),
       ("finance_costs_percent", fp),
       ("lenders_costs_percent", lp)]
    | _, _ => nullFundingCosts
  | _, _ => nullFundingCosts

/-! ### Stage 12: selling_costs -/

/-- Key set of the `selling_costs` result, in insertion order. -/
def sellingKeys : List String :=
  ["marketing_costs", "agent_fee_percent", "agent_fee", "legal_fees_per_unit",
   "legal_fees_from_units", "legal_fees_percent", "legal_fees_from_percent",
   "legal_fees_total", "selling_costs_total", "selling_costs_percent"]

/-- The guard-failure record of `selling_costs`. -/
def nullSelling : PyRec := sellingKeys.map (fun k => (k, Value.null))

/-- Embedding of `selling_costs` (template.py lines 582-631); the guard also
requires a strictly positive GDV amount. -/
def selling_costs (gdv_dict : List GdvRow) : PyRec :=
  match gdv_dict.getLast? with
  | some last =>
    match last.amount with
    | some gdv_total =>
      if gdv_total > 0 then
        let agent_fee := gdv_total * 0.024
        let legal_fees_from_units :=
          if truthy last.no_of_units then or0 last.no_of_units * 1517 else 0
        let legal_fees_from_percent := gdv_total * 0.01
        let legal_fees_total := max legal_fees_from_units legal_fees_from_percent
        let total := 5000 + agent_fee + legal_fees_total
        [("marketing_costs", .num 5000),
         ("agent_fee_percent", .num 0.024),
         ("agent_fee", .num agent_fee),
         ("legal_fees_per_unit", .num 1517),
         ("legal_fees_from_units", .num legal_fees_from_units),
         ("legal_fees_percent", .num 0.01),
         ("legal_fees_from_percent", .num legal_fees_from_percent),
         ("legal_fees_total", .num legal_fees_total),
         ("selling_costs_total", .num total),
         ("selling_costs_percent", .num (total / gdv_total))]
      else nullSelling
    | none => nullSelling
  | none => nullSelling

/-! ### Stage 13: total_costs -/

/-- Key set of the `total_costs` result, in insertion order. -/
def totalCostsKeys : List String :=
  ["acquisition_costs", "development_costs", "funding_costs", "selling_costs",
   "total_costs", "acquisition_costs_percent", "development_costs_percent",
   "funding_costs_percent", "selling_costs_percent"]

/-- The guard-failure record of `total_costs`. -/
def nullTotalCosts : PyRec := totalCostsKeys.map (fun k => (k, Value.null))

/-- Embedding of `total_costs` (template.py lines 634-675).  The breakdown
divisions raise `ZeroDivisionError` when the grand total is zero. -/
def total_costs (acquisition_dict : Option AcquisitionRec)
    (dev_costs_dict : Option DevCostsRec) (funding_costs_dict : Option FundingCostsRec)
    (selling_dict : Option SellingRec) : Except Unit PyRec :=
  match acquisition_dict, dev_costs_dict, funding_costs_dict, selling_dict with
  | some acqd, some devd, some fundd, some selld =>
    match acqd.total_acquisition_costs, devd.total_development_costs,
          fundd.funding_costs_total, selld.selling_costs_total with
    | some ac, some dc, some fc, some sc =>
      let total := ac + dc + fc + sc
      match pydiv ac total, pydiv dc total, pydiv fc total, pydiv sc total with
      | .ok ap, .ok dp, .ok fp, .ok sp =>
        .ok [("acquisition_costs", .num ac),
             ("development_costs", .num dc),
             ("funding_costs", .num fc),
             ("selling_costs", .num sc),
             ("total_costs", .num total),
             ("acquisition_costs_percent", .num ap),
             ("development_costs_percent", .num dp),
             ("funding_costs_percent", .num fp),
             ("selling_costs_percent", .num sp)]
      | _, _, _, _ => .error ()
    | _, _, _, _ => .ok nullTotalCosts
  | _, _, _, _ => .ok nullTotalCosts

/-! ### Stage 14: net_profit_analysis -/

/-- Key set of the `net_profit_analysis` result, in insertion order. -/
def netProfitKeys : List String :=
  ["net_profit", "net_profit_on_gdv", "net_profit_on_costs"]

/-- The guard-failure record of `net_profit_analysis`. -/
def nullNetProfit : PyRec := netProfitKeys.map (fun k => (k, Value.null))

/-- Embedding of `net_profit_analysis` (template.py lines 677-699).  The
margin divisions raise `ZeroDivisionError` on a zero GDV or zero total
cost. -/
def net_profit_analysis (gdv_dict : List GdvRow)
    (total_costs_dict : Option TotalCostsRec) : Except Unit PyRec :=
  match gdv_dict.getLast?, total_costs_dict with
  | some last, some tcd =>
    match last.amount, tcd.total_costs with
    | some gdv_total, some tc =>
      let net_profit := gdv_total - tc
      match pydiv net_profit gdv_total, pydiv net_profit tc with
      | .ok onGdv, .ok onCosts =>
        .ok [("net_profit", .num net_profit),
             ("net_profit_on_gdv", .num onGdv),
             ("net_profit_on_costs", .num onCosts)]
      | _, _ => .error ()
    | _, _ => .ok nullNetProfit
  | _, _ => .ok nullNetProfit

/-! ### Stage 15: lending_analysis -/

/-- Key set of the `lending_analysis` result, in insertion order. -/
def lendingKeys : List String :=
  ["ltc_criteria", "ltgdv_criteria", "max_loan_ltc", "max_loan_ltgdv",
   "maximum_loan_amount", "reduce_costs_by", "reduce_loan_by",
   "max_lenders_land_advance_day1", "own_equity_needed_day1",
   "shortfall_equity_needed_day1", "return_on_own_funds",
   "return_on_own_funds_per_annum"]

/-- The guard-failure record of `lending_analysis`. -/
def nullLending : PyRec := lendingKeys.map (fun k => (k, Value.null))

/-- Embedding of `lending_analysis` (template.py lines 702-772).  The day-1
funding arithmetic adds the `development_costs`, `funding_costs` and
`acquisition_costs` fields of the total-costs record without null checks,
so any of them being `None` raises `TypeError`. -/
def lending_analysis (total_costs_dict : Option TotalCostsRec) (gdv_dict : List GdvRow)
    (own_funds_invested : Option ℚ) : Except Unit PyRec :=
  match total_costs_dict, gdv_dict.getLast? with
  | some tcd, some last =>
    match tcd.total_costs, last.amount with
    | some total_costs, some gdv_total =>
      let max_loan_ltc := total_costs * 0.85
      let max_loan_ltgdv := gdv_total * 0.7
      let maximum_loan_amount := min max_loan_ltc max_loan_ltgdv
      let reduce_costs_by :=
        if max_loan_ltc < total_costs then total_costs - max_loan_ltc else 0
      let reduce_loan_by :=
        if max_loan_ltgdv < maximum_loan_amount then maximum_loan_amount - max_loan_ltgdv
        else 0
      match pynum tcd.development_costs, pynum tcd.funding_costs,
            pynum tcd.acquisition_costs with
      | .ok dc, .ok fc, .ok ac =>
        let development_costs := dc + fc
        let land_advance := maximum_loan_amount - development_costs
        let own_equity := ac - land_advance
        let shortfall :=
          match own_funds_invested with
          | some ofi => if ofi ≠ 0 ∧ own_equity > ofi then own_equity - ofi else 0
          | none => 0
        let roiPair : Value × Value :=
          match own_funds_invested with
          | some ofi =>
            if ofi ≠ 0 then
              let net_profit := gdv_total - total_costs
              (.num (net_profit / ofi), .num (net_profit / ofi / (18 / 12)))
            else (.null, .null)
          | none => (.null, .null)
        .ok [("ltc_criteria", .num 0.85),
             ("ltgdv_criteria", .num 0.7),
             ("max_loan_ltc", .num max_loan_ltc),
             ("max_loan_ltgdv", .num max_loan_ltgdv),
             ("maximum_loan_amount", .num maximum_loan_amount),
             ("reduce_costs_by", .num reduce_costs_by),
             ("reduce_loan_by", .num reduce_loan_by),
             ("max_lenders_land_advance_day1", .num land_advance),
             ("own_equity_needed_day1", .num own_equity),
             ("shortfall_equity_needed_day1", .num shortfall),
             ("return_on_own_funds", roiPair.1),
             ("return_on_own_funds_per_annum", roiPair.2)]
      | _, _, _ => .error ()
    | _, _ => .ok nullLending
  | _, _ => .ok nullLending

/-! ### Stage 16: post_development_analysis -/

/-- Key set of the `post_development_analysis` result, in insertion order. -/
def postDevKeys : List String :=
  ["rental_income_per_annum", "service_charges_percent", "service_charges",
   "net_rental_income", "term_loan_ltv", "term_loan_amount",
   "term_loan_interest_rate", "interest_on_term_loan", "net_cashflow_per_annum"]

/-- The guard-failure record of `post_development_analysis`. -/
def nullPostDev : PyRec := postDevKeys.map (fun k => (k, Value.null))

/-- Embedding of `post_development_analysis` (template.py lines 775-816). -/
def post_development_analysis (gdv_dict : List GdvRow) (total_units : ℚ)
    (rental_per_unit_per_month : ℚ) : PyRec :=
  match gdv_dict.getLast? with
  | some last =>
    match last.amount with
    | some gdv_total =>
      let rental_income := total_units * rental_per_unit_per_month * 12
      let service_charges := -rental_income * 0.1
      let net_rental_income := rental_income + service_charges
      let term_loan_amount := gdv_total * 0.65
      let interest_on_term_loan := -term_loan_amount * 0.07
      let net_cashflow := net_rental_income + interest_on_term_loan
      [("rental_income_per_annum", .num rental_income),
       ("service_charges_percent", .num 0.1),
       ("service_charges", .num service_charges),
       ("net_rental_income", .num net_rental_income),
       ("term_loan_ltv", .num 0.65),
       ("term_loan_amount", .num term_loan_amount),
       ("term_loan_interest_rate", .num 0.07),
       ("interest_on_term_loan", .num interest_on_term_loan),
       ("net_cashflow_per_annum", .num net_cashflow)]
    | none => nullPostDev
  | none => nullPostDev

/-! ### Stage 17: funding_workings -/

/-- Key set (the `categories` list) of the `funding_workings` result, in
insertion order. -/
def fundingWorkingsKeys : List String :=
  ["asking_price", "stamp_duty", "sourcing_fee", "building_insurance",
   "legal_professional_costs", "acquisition_costs_total", "build_costs_total",
   "professional_fees_total", "statutory_costs_total", "funding_costs_total",
   "selling_costs_total", "total_costs"]

/-- The guard-failure record of `funding_workings`. -/
def nullFundingWorkings : List (String × FundLine) :=
  fundingWorkingsKeys.map (fun k => (k, ⟨none, none, none⟩))

/-- Embedding of `funding_workings` (template.py lines 819-946); the guard is
the non-emptiness of all six input dicts, and every null input value is
coerced to 0. -/
def funding_workings (acquisition_dict : Option AcquisitionRec)
    (dev_costs_dict : Option DevCostsRec) (statutory_dict : Option StatutoryRec)
    (funding_costs_dict : Option FundingCostsRec) (selling_dict : Option SellingRec)
    (finance_dict : Option FinanceRec) : List (String × FundLine) :=
  match acquisition_dict, dev_costs_dict, statutory_dict, funding_costs_dict,
        selling_dict, finance_dict with
  | some acqd, some devd, some statd, some fundd, some selld, some find =>
    let land_loan := or0 find.land_lending_amount
    let _development_loan := or0 find.development_lending_amount
    let asking_price := or0 acqd.asking_price
    let stamp_duty := or0 acqd.stamp_duty
    let sourcing_fee := or0 acqd.sourcing_fee
    let building_insurance := or0 acqd.building_insurance
    let legal_costs := or0 acqd.legal_professional_costs
    let acq_own := (asking_price - land_loan) + stamp_duty + sourcing_fee
      + building_insurance + legal_costs
    let acq_borrow := land_loan
    let acq_total := or0 acqd.total_acquisition_costs
    let build_costs_total := or0 devd.build_costs_total
    let prof_fees_total := or0 devd.professional_fees_total
    let statutory_total := or0 statd.statutory_costs_total
    let funding_total := or0 fundd.funding_costs_total
    let selling_total := or0 selld.selling_costs_total
    let total_own := acq_own + funding_total + selling_total
    let total_borrow := acq_borrow + build_costs_total + prof_fees_total + statutory_total
    let total_costs := total_own + total_borrow
    [("asking_price", ⟨some (asking_price - land_loan), some land_loan, some asking_price⟩),
     ("stamp_duty", ⟨some stamp_duty, some 0, some stamp_duty⟩),
     ("sourcing_fee", ⟨some sourcing_fee, some 0, some sourcing_fee⟩),
     ("building_insurance", ⟨some building_insurance, some 0, some building_insurance⟩),
     ("legal_professional_costs", ⟨some legal_costs, some 0, some legal_costs⟩),
     ("acquisition_costs_total", ⟨some acq_own, some acq_borrow, some acq_total⟩),
     ("build_costs_total", ⟨some 0, some build_costs_total, some build_costs_total⟩),
     ("professional_fees_total", ⟨some 0, some prof_fees_total, some prof_fees_total⟩),
     ("statutory_costs_total", ⟨some 0, some statutory_total, some statutory_total⟩),
     ("funding_costs_total", ⟨some funding_total, some 0, some funding_total⟩),
     ("selling_costs_total", ⟨some selling_total, some 0, some selling_total⟩),
     ("total_costs", ⟨some total_own, some total_borrow, some total_costs⟩)]
  | _, _, _, _, _, _ => nullFundingWorkings

/-! ### Stage 18: calculate_kpis -/

/-- Key set of the `calculate_kpis` result, in insertion order. -/
def kpisKeys : List String :=
  ["deal_type", "higher_risk_building", "own_funds_needed", "land_purchase_own_funds",
   "shortfall_due_to_lending_criteria", "net_profit", "timeline_months",
   "return_on_own_funds", "return_on_own_funds_per_annum", "lending_criteria_ltc",
   "lending_criteria_ltgdv", "own_funds_left_in_deal", "yearly_net_cashflow",
   "annual_yield_on_own_funds", "travel_distance_miles", "car_travel_time",
   "train_travel_time"]

/-- The guard-failure record of `calculate_kpis`. -/
def nullKpis : PyRec := kpisKeys.map (fun k => (k, Value.null))

/-- Embedding of `calculate_kpis` (template.py lines 948-1040); the guard is
the non-emptiness of the Funding Workings, Net Profit and Lending records. -/
def calculate_kpis (email_dict : Email) (funding_workings_dict : List (String × FundLine))
    (net_profit_dict : Option NetProfitRec) (lending_dict : Option LendingRec)
    (post_dev_dict : Option PostDevRec) (timeline_months : Option ℚ) : PyRec :=
  match net_profit_dict, lending_dict with
  | some npd, some lendd =>
    if funding_workings_dict = [] then nullKpis
    else
      let deal_type := email_dict.deal_type.getD "Unknown"
      let total_own_funds :=
        or0 ((funding_workings_dict.lookup "total_costs").bind FundLine.own)
      let land_purchase_own_funds :=
        or0 ((funding_workings_dict.lookup "acquisition_costs_total").bind FundLine.own)
      let shortfall := or0 lendd.shortfall_equity_needed_day1
      let net_profit := or0 npd.net_profit
      let tm := orD timeline_months 18
      let roiPair : Value × Value :=
        if total_own_funds ≠ 0 ∧ total_own_funds > 0 then
          let npv := or0 npd.net_profit
          (.num (npv / total_own_funds), .num (npv / total_own_funds / (tm / 12)))
        else (.null, .null)
      let total_costs_v :=
        or0 ((funding_workings_dict.lookup "total_costs").bind FundLine.total)
      let max_loan := or0 lendd.maximum_loan_amount
      let ltc_flag : Value :=
        if total_costs_v > 0 then
          if max_loan / total_costs_v ≤ orD lendd.ltc_criteria 0.85 then .str "Yes"
          else .str "No"
        else .str "Unknown"
      let gdv_total := or0 email_dict.property_details.gdv
      let ltgdv_flag : Value :=
        if gdv_total ≠ 0 ∧ gdv_total > 0 then
          if max_loan / gdv_total ≤ orD lendd.ltgdv_criteria 0.7 then .str "Yes"
          else .str "No"
        else .str "Unknown"
      let postTriple : Value × Value × Value :=
        match post_dev_dict with
        | some pd =>
          let term_loan := or0 pd.term_loan_amount
          let own_left := (total_own_funds + max_loan) - term_loan
          let yearly_cf := or0 pd.net_cashflow_per_annum
          let yield : Value :=
            if own_left ≠ 0 ∧ own_left > 0 then .num (yearly_cf / own_left) else .null
          (.num own_left, .num yearly_cf, yield)
        | none => (.null, .null, .null)
      [("deal_type", .str deal_type),
       ("higher_risk_building", .bool false),
       ("own_funds_needed", .num total_own_funds),
       ("land_purchase_own_funds", .num land_purchase_own_funds),
       ("shortfall_due_to_lending_criteria", .num shortfall),
       ("net_profit", .num net_profit),
       ("timeline_months", .num tm),
       ("return_on_own_funds", roiPair.1),
       ("return_on_own_funds_per_annum", roiPair.2),
       ("lending_criteria_ltc", ltc_flag),
       ("lending_criteria_ltgdv", ltgdv_flag),
       ("own_funds_left_in_deal", postTriple.1),
       ("yearly_net_cashflow", postTriple.2.1),
       ("annual_yield_on_own_funds", postTriple.2.2),
       ("travel_distance_miles", .num 64.1),
       ("car_travel_time", .str "1h 12m"),
       ("train_travel_time", .str "2h 51m")]
  | _, _ => nullKpis

/-! ### Concrete fixtures used by the claim checks -/

/-- A GDV totals row with 5 units, average 10 m² and amount 100. -/
def gdvRowAmount100 : GdvRow :=
  { market_type := "Residential - Total", build_type := "New Build", floor := "",
    accommodation_type := "", no_of_units := some 5, average_sqm_per_unit := some 10,
    average_sqft_per_unit := none, price_per_unit := none, price_per_sqft := none,
    amount := some 100 }

/-- A GDV totals row with units and area present but a null amount. -/
def gdvRowNullAmount : GdvRow :=
  { market_type := "Residential - Total", build_type := "New Build", floor := "",
    accommodation_type := "", no_of_units := some 2, average_sqm_per_unit := some 10,
    average_sqft_per_unit := none, price_per_unit := none, price_per_sqft := none,
    amount := none }

/-- An acquisition record with every value null (the stage's own fallback). -/
def acqAllNull : AcquisitionRec :=
  ⟨none, none, none, none, none, none, none, none, none⟩

/-- A build-cost record carrying only a non-null `build_costs_total` of 50. -/
def buildCostsTotal50 : BuildCostRec :=
  ⟨none, none, none, none, none, none, none, none, none, some 50⟩

/-- An email whose asking price is present with the value 0. -/
def emailZeroAsking : Email := ⟨⟨some 0, some 300000, [], none⟩, none⟩

/-- A total-costs record whose components sum to the stated total of 100. -/
def tcRec100 : TotalCostsRec :=
  ⟨some 20, some 30, some 25, some 25, some 100, none, none, none, none⟩

/-- The record `lending_analysis` computes from `tcRec100` and a GDV of 100. -/
def lendingOut100 : PyRec :=
  [("ltc_criteria", .num 0.85), ("ltgdv_criteria", .num 0.7),
   ("max_loan_ltc", .num 85), ("max_loan_ltgdv", .num 70),
   ("maximum_loan_amount", .num 70), ("reduce_costs_by", .num 15),
   ("reduce_loan_by", .num 0), ("max_lenders_land_advance_day1", .num 15),
   ("own_equity_needed_day1", .num 5), ("shortfall_equity_needed_day1", .num 0),
   ("return_on_own_funds", .null), ("return_on_own_funds_per_annum", .null)]

/-- The leaf line items of Funding Workings: every line except the
`acquisition_costs_total` subtotal and the `total_costs` grand total. -/
def leafKeys : List String :=
  ["asking_price", "stamp_duty", "sourcing_fee", "building_insurance",
   "legal_professional_costs", "build_costs_total", "professional_fees_total",
   "statutory_costs_total", "funding_costs_total", "selling_costs_total"]

/-- Sum of the `own` components over the leaf line items. -/
def leafOwnSum (fw : List (String × FundLine)) : ℚ :=
  (leafKeys.map (fun k => or0 ((fw.lookup k).bind FundLine.own))).sum

/-- Sum of the `borrow` components over the leaf line items. -/
def leafBorrowSum (fw : List (String × FundLine)) : ℚ :=
  (leafKeys.map (fun k => or0 ((fw.lookup k).bind FundLine.borrow))).sum

/-- An acquisition record whose stated total (100) is not the sum of its
components (all 0). -/
def acqInconsistent : AcquisitionRec :=
  ⟨some 0, some 0, none, some 0, none, some 0, none, some 0, some 100⟩

/-- An all-null development-costs record. -/
def devAllNull : DevCostsRec := ⟨none, none, none, none, none, none, none⟩

/-- An all-null statutory record. -/
def statAllNull : StatutoryRec := ⟨none, none, none, none, none, none, none⟩

/-- An all-null funding-costs record. -/
def fundAllNull : FundingCostsRec := ⟨none, none, none, none, none⟩

/-- An all-null selling record. -/
def sellAllNull : SellingRec :=
  ⟨none, none, none, none, none, none, none, none, none, none⟩

/-- An all-null finance record. -/
def finAllNull : FinanceRec :=
  ⟨none, none, none, none, none, none, none, none, none, none, none, none, none,
   none, none, none, none, none, none, none, none⟩

/-- An internally consistent acquisition record: 8 + 2 + 1 + 1 + 0 = 12. -/
def acqConsistent : AcquisitionRec :=
  ⟨some 8, some 2, none, some 1, none, some 1, none, some 0, some 12⟩

/-- A finance record carrying a land lending amount of 4. -/
def finLand4 : FinanceRec :=
  ⟨none, some 4, none, none, none, none, none, none, none, none, none, none, none,
   none, none, none, none, none, none, none, none⟩

/-- A development-costs record with build total 5 and professional total 3. -/
def devBuild5Prof3 : DevCostsRec := ⟨some 5, some 3, none, none, none, none, none⟩

/-- A statutory record with total 2. -/
def statTotal2 : StatutoryRec := ⟨none, none, none, none, none, some 2, none⟩

/-- A funding-costs record with total 6. -/
def fundTotal6 : FundingCostsRec := ⟨none, none, some 6, none, none⟩

/-- A selling record with total 7. -/
def sellTotal7 : SellingRec :=
  ⟨none, none, none, none, none, none, none, none, some 7, none⟩

/-- An accommodation entry supplying only an area of 50 sqft. -/
def accomSqft50 : Accom := ⟨"", none, some 50, none, none, none, none⟩

/-- An accommodation entry with a present-but-zero price and 5 units. -/
def accomZeroPrice : Accom := ⟨"", none, none, none, some 0, none, some 5⟩

/-! ### Claim C1 -/

/-- C1: the claim that every stage totally returns its fixed-key record on
missing-data business conditions fails on the code: `professional_fees` with
the GDV amount and `build_costs_total` present but `total_acquisition_costs`
null raises `TypeError`, and `deal_appraisal` with an asking price of 0 and
the reduction present raises `ZeroDivisionError`; both are modelled as
`.error ()`. -/
theorem c1_stages_raise_on_missing_data :
    professional_fees [gdvRowAmount100] acqAllNull (some buildCostsTotal50) 18 = .error ()
    ∧ deal_appraisal emailZeroAsking = .error () := by
  exact ⟨rfl, rfl⟩

/-! ### Claim C3 -/

/-- C3: in `lending_analysis` with total costs 100 and GDV 100 the LTGDV cap
(70) is strictly below the LTC-derived loan (85), yet `reduce_loan_by` is 0
rather than the difference 15: the code compares the LTGDV cap against
`maximum_loan_amount = min` of the two caps, a condition that never holds. -/
theorem c3_reduce_loan_by_is_zero_when_ltgdv_binds :
    (lending_analysis (some tcRec100) [gdvRowAmount100] none).map
      (fun r => (r.lookup "max_loan_ltc", r.lookup "max_loan_ltgdv",
                 r.lookup "reduce_loan_by"))
      = .ok (some (.num 85), some (.num 70), some (.num 0)) := by
  simp only [lending_analysis, tcRec100, gdvRowAmount100, pynum, List.getLast?,
    List.getLast, Except.map]
  norm_num [List.lookup, min_def]
  exact ⟨rfl, rfl, rfl⟩

/-! ### Claim C9 -/

/-- C9: `acquisition_costs` returns the all-null fallback record whenever the
asking price is present with the value 0, because the truthiness guard
treats a zero price like an absent one. -/
theorem c9_zero_asking_price_yields_null_record (email : Email)
    (h : email.property_details.asking_price = some 0) :
    acquisition_costs email = nullAcquisition := by
  unfold acquisition_costs
  rw [h]
  simp

/-- Witness for C9 at a concrete email with asking price 0. -/
theorem c9_zero_asking_price_yields_null_record_witness :
    acquisition_costs emailZeroAsking = nullAcquisition :=
  c9_zero_asking_price_yields_null_record emailZeroAsking rfl

/-! ### Claim C10 -/

/-- C10: whenever the guard of `calculate_kpis` passes (funding workings,
net profit and lending records non-empty), the travel fields are the
constants 64.1, "1h 12m" and "2h 51m", independent of every input value. -/
theorem c10_kpis_travel_constants (email : Email) (fw : List (String × FundLine))
    (npd : NetProfitRec) (lendd : LendingRec) (pd : Option PostDevRec)
    (tm : Option ℚ) (hfw : fw ≠ []) :
    (calculate_kpis email fw (some npd) (some lendd) pd tm).lookup "travel_distance_miles"
        = some (.num 64.1)
    ∧ (calculate_kpis email fw (some npd) (some lendd) pd tm).lookup "car_travel_time"
        = some (.str "1h 12m")
    ∧ (calculate_kpis email fw (some npd) (some lendd) pd tm).lookup "train_travel_time"
        = some (.str "2h 51m") := by
  simp only [calculate_kpis]
  rw [if_neg hfw]
  exact ⟨rfl, rfl, rfl⟩

/-- Witness for C10 at concrete guard-passing inputs. -/
theorem c10_kpis_travel_constants_witness :
    (calculate_kpis emailZeroAsking nullFundingWorkings (some ⟨none, none, none⟩)
        (some ⟨none, none, none, none, none, none, none, none, none, none, none, none⟩)
        none none).lookup "travel_distance_miles" = some (.num 64.1)
    ∧ (calculate_kpis emailZeroAsking nullFundingWorkings (some ⟨none, none, none⟩)
        (some ⟨none, none, none, none, none, none, none, none, none, none, none, none⟩)
        none none).lookup "car_travel_time" = some (.str "1h 12m")
    ∧ (calculate_kpis emailZeroAsking nullFundingWorkings (some ⟨none, none, none⟩)
        (some ⟨none, none, none, none, none, none, none, none, none, none, none, none⟩)
        none none).lookup "train_travel_time" = some (.str "2h 51m") :=
  c10_kpis_travel_constants emailZeroAsking nullFundingWorkings _ _ none none (by decide)

/-! ### Claim C2 -/

/-- C2 (counterexample): with a GDV totals row whose `amount` is null but
whose unit count (2) and average m² (10) are present, `build_costs` does not
return null derived fields: its guard never consults the amount, and it
computes `NIA = 20`. -/
theorem c2_build_costs_computes_despite_null_amount :
    gdvRowNullAmount.amount = none
    ∧ (build_costs [gdvRowNullAmount] acqAllNull).lookup "NIA" = some (.num 20) :=
  ⟨rfl, by norm_num [build_costs, gdvRowNullAmount, List.lookup]⟩

/-- C2 (amended): if the GDV totals row's `amount` is null, then the stages
that actually guard on the amount — Professional Fees, Profit Pre-Funding,
Net Profit Analysis, Lending Analysis and Post-Development Analysis — return
their records with every derived field null; Build Costs and Statutory Costs
guard only on the unit count and average area, and the KPI stage's guard
accepts non-empty all-null fallback records, so those three are dropped from
the original list. -/
theorem c2_null_amount_propagates (gdv : List GdvRow) (last : GdvRow)
    (acq : AcquisitionRec) (acqO : Option AcquisitionRec) (bc : Option BuildCostRec)
    (tm : ℚ) (dev : Option DevCostsRec) (tc tcL : Option TotalCostsRec)
    (own : Option ℚ) (tu rent : ℚ)
    (hlast : gdv.getLast? = some last) (hamt : last.amount = none) :
    professional_fees gdv acq bc tm = .ok nullProfFees
    ∧ profit_pre_funding_costs gdv acqO dev = .ok nullProfitPre
    ∧ net_profit_analysis gdv tc = .ok nullNetProfit
    ∧ lending_analysis tcL gdv own = .ok nullLending
    ∧ post_development_analysis gdv tu rent = nullPostDev := by
  refine ⟨?_, ?_, ?_, ?_, ?_⟩
  · simp [professional_fees, hlast, hamt]
  · cases acqO <;> cases dev <;> simp [profit_pre_funding_costs, hlast, hamt]
  · rcases tc with _ | tcd
    · simp [net_profit_analysis, hlast]
    · cases htc : tcd.total_costs <;> simp [net_profit_analysis, hlast, hamt, htc]
  · rcases tcL with _ | tcd
    · simp [lending_analysis, hlast]
    · cases htc : tcd.total_costs <;> simp [lending_analysis, hlast, hamt, htc]
  · simp [post_development_analysis, hlast, hamt]

/-- Witness for the amended C2 at concrete inputs with a null totals
amount. -/
theorem c2_null_amount_propagates_witness :
    professional_fees [gdvRowNullAmount] acqAllNull none 18 = .ok nullProfFees
    ∧ profit_pre_funding_costs [gdvRowNullAmount] none none = .ok nullProfitPre
    ∧ net_profit_analysis [gdvRowNullAmount] none = .ok nullNetProfit
    ∧ lending_analysis none [gdvRowNullAmount] none = .ok nullLending
    ∧ post_development_analysis [gdvRowNullAmount] 84 1200 = nullPostDev :=
  c2_null_amount_propagates [gdvRowNullAmount] gdvRowNullAmount acqAllNull none none
    18 none none none none 84 1200 rfl rfl

/-! ### Claim C4 -/

/-- C4: whenever `lending_analysis`'s guard passes (total costs and GDV
amount present) and a record is returned, `maximum_loan_amount` is the
minimum of `max_loan_ltc = 0.85 × total_costs` and
`max_loan_ltgdv = 0.70 × GDV`, and `reduce_costs_by` is positive exactly
when the LTC-capped loan is below total costs. -/
theorem c4_lending_cap_selection (tcd : TotalCostsRec) (gdv : List GdvRow)
    (own : Option ℚ) (last : GdvRow) (tc g : ℚ) (r : PyRec)
    (hlast : gdv.getLast? = some last)
    (htc : tcd.total_costs = some tc) (hg : last.amount = some g)
    (hok : lending_analysis (some tcd) gdv own = .ok r) :
    r.lookup "max_loan_ltc" = some (.num (tc * 0.85))
    ∧ r.lookup "max_loan_ltgdv" = some (.num (g * 0.7))
    ∧ r.lookup "maximum_loan_amount" = some (.num (min (tc * 0.85) (g * 0.7)))
    ∧ ∃ rc, r.lookup "reduce_costs_by" = some (.num rc) ∧ (0 < rc ↔ tc * 0.85 < tc) := by
  simp only [lending_analysis, hlast, htc, hg] at hok
  cases hdc : tcd.development_costs with
  | none => simp [pynum, hdc] at hok
  | some dc =>
    cases hfc : tcd.funding_costs with
    | none => simp [pynum, hdc, hfc] at hok
    | some fc =>
      cases hac : tcd.acquisition_costs with
      | none => simp [pynum, hdc, hfc, hac] at hok
      | some ac =>
        simp only [pynum, hdc, hfc, hac] at hok
        rw [Except.ok.injEq] at hok
        subst hok
        refine ⟨rfl, rfl, rfl, ?_⟩
        refine ⟨if tc * 0.85 < tc then tc - tc * 0.85 else 0, rfl, ?_⟩
        constructor
        · intro hpos
          by_contra hnot
          rw [if_neg hnot] at hpos
          exact lt_irrefl 0 hpos
        · intro hlt
          rw [if_pos hlt]
          linarith

/-- Witness for C4 at total costs 100 and GDV 100. -/
theorem c4_lending_cap_selection_witness :
    lendingOut100.lookup "max_loan_ltc" = some (.num (100 * 0.85))
    ∧ lendingOut100.lookup "max_loan_ltgdv" = some (.num (100 * 0.7))
    ∧ lendingOut100.lookup "maximum_loan_amount"
        = some (.num (min ((100:ℚ) * 0.85) (100 * 0.7)))
    ∧ ∃ rc, lendingOut100.lookup "reduce_costs_by" = some (.num rc)
        ∧ (0 < rc ↔ (100:ℚ) * 0.85 < 100) :=
  c4_lending_cap_selection tcRec100 [gdvRowAmount100] none gdvRowAmount100 100 100
    lendingOut100 rfl rfl rfl
    (by simp only [lending_analysis, tcRec100, gdvRowAmount100, pynum, List.getLast?,
          List.getLast, lendingOut100]
        norm_num [min_def])

/-! ### Claim C5: per-stage key-set stability lemmas -/

/-- The `deal_appraisal` key set is the same on every path. -/
theorem keys_deal_appraisal (e : Email) :
    (deal_appraisal e).map keys = (deal_appraisal e).map (fun _ => dealAppraisalKeys) := by
  unfold deal_appraisal
  repeat' (first | split | dsimp only)
  all_goals rfl

/-- The `acquisition_costs` key set is the same on every path. -/
theorem keys_acquisition_costs (e : Email) :
    keys (acquisition_costs e) = acquisitionKeys := by
  unfold acquisition_costs
  repeat' (first | split | dsimp only)
  all_goals rfl

/-- The `build_costs` key set is the same on every path. -/
theorem keys_build_costs (gdv : List GdvRow) (acq : AcquisitionRec) :
    keys (build_costs gdv acq) = buildCostKeys := by
  unfold build_costs
  repeat' (first | split | dsimp only)
  all_goals rfl

/-- The `professional_fees` key set is the same on every non-raising path. -/
theorem keys_professional_fees (gdv : List GdvRow) (acq : AcquisitionRec)
    (bc : Option BuildCostRec) (tm : ℚ) :
    (professional_fees gdv acq bc tm).map keys
      = (professional_fees gdv acq bc tm).map (fun _ => profFeesKeys) := by
  unfold professional_fees
  repeat' (first | split | dsimp only)
  all_goals rfl

/-- The `statutory_costs` key set is the same on every path. -/
theorem keys_statutory_costs (gdv : List GdvRow) :
    keys (statutory_costs gdv) = statutoryKeys := by
  unfold statutory_costs
  repeat' (first | split | dsimp only)
  all_goals rfl

/-- The `total_development_costs` key set is the same on every non-raising
path. -/
theorem keys_total_development_costs (bc : Option BuildCostRec)
    (pf : Option ProfFeesRec) (st : Option StatutoryRec) :
    (total_development_costs bc pf st).map keys
      = (total_development_costs bc pf st).map (fun _ => devCostsKeys) := by
  unfold total_development_costs
  repeat' (first | split | dsimp only)
  all_goals rfl

/-- The `profit_pre_funding_costs` key set is the same on every non-raising
path. -/
theorem keys_profit_pre_funding_costs (gdv : List GdvRow)
    (acq : Option AcquisitionRec) (dev : Option DevCostsRec) :
    (profit_pre_funding_costs gdv acq dev).map keys
      = (profit_pre_funding_costs gdv acq dev).map (fun _ => profitPreKeys) := by
  unfold profit_pre_funding_costs
  repeat' (first | split | dsimp only)
  all_goals rfl

/-- The `finance_costs` key set is the same on every path. -/
theorem keys_finance_costs (acq : Option AcquisitionRec) (dev : Option DevCostsRec)
    (tl : Option TimelineRec) :
    keys (finance_costs acq dev tl) = financeKeys := by
  unfold finance_costs
  repeat' (first | split | dsimp only)
  all_goals rfl

/-- The `lenders_other_costs` key set is fixed (the stage has no guard). -/
theorem keys_lenders_other_costs (tl : Option TimelineRec) :
    keys (lenders_other_costs tl) = lendersKeys := by
  rfl

/-- The `total_funding_costs` key set is the same on every path. -/
theorem keys_total_funding_costs (fin : Option FinanceRec) (len : Option LendersRec) :
    keys (total_funding_costs fin len) = fundingCostsKeys := by
  unfold total_funding_costs
  repeat' (first | split | dsimp only)
  all_goals rfl

/-- The `selling_costs` key set is the same on every path. -/
theorem keys_selling_costs (gdv : List GdvRow) :
    keys (selling_costs gdv) = sellingKeys := by
  unfold selling_costs
  repeat' (first | split | dsimp only)
  all_goals rfl

/-- The `total_costs` key set is the same on every non-raising path. -/
theorem keys_total_costs (acq : Option AcquisitionRec) (dev : Option DevCostsRec)
    (fund : Option FundingCostsRec) (sell : Option SellingRec) :
    (total_costs acq dev fund sell).map keys
      = (total_costs acq dev fund sell).map (fun _ => totalCostsKeys) := by
  unfold total_costs
  repeat' (first | split | dsimp only)
  all_goals rfl

/-- The `net_profit_analysis` key set is the same on every non-raising path. -/
theorem keys_net_profit_analysis (gdv : List GdvRow) (tc : Option TotalCostsRec) :
    (net_profit_analysis gdv tc).map keys
      = (net_profit_analysis gdv tc).map (fun _ => netProfitKeys) := by
  unfold net_profit_analysis
  repeat' (first | split | dsimp only)
  all_goals rfl

/-- The `lending_analysis` key set is the same on every non-raising path. -/
theorem keys_lending_analysis (tc : Option TotalCostsRec) (gdv : List GdvRow)
    (own : Option ℚ) :
    (lending_analysis tc gdv own).map keys
      = (lending_analysis tc gdv own).map (fun _ => lendingKeys) := by
  unfold lending_analysis
  repeat' (first | split | dsimp only)
  all_goals rfl

/-- The `post_development_analysis` key set is the same on every path. -/
theorem keys_post_development_analysis (gdv : List GdvRow) (tu rent : ℚ) :
    keys (post_development_analysis gdv tu rent) = postDevKeys := by
  unfold post_development_analysis
  repeat' (first | split | dsimp only)
  all_goals rfl

/-- The `funding_workings` key set is the same on every path. -/
theorem keys_funding_workings (acq : Option AcquisitionRec) (dev : Option DevCostsRec)
    (st : Option StatutoryRec) (fund : Option FundingCostsRec)
    (sell : Option SellingRec) (fin : Option FinanceRec) :
    keys (funding_workings acq dev st fund sell fin) = fundingWorkingsKeys := by
  unfold funding_workings
  repeat' (first | split | dsimp only)
  all_goals rfl

/-- The `calculate_kpis` key set is the same on every path. -/
theorem keys_calculate_kpis (e : Email) (fw : List (String × FundLine))
    (np : Option NetProfitRec) (lend : Option LendingRec) (pd : Option PostDevRec)
    (tm : Option ℚ) :
    keys (calculate_kpis e fw np lend pd tm) = kpisKeys := by
  unfold calculate_kpis
  repeat' (first | split | dsimp only)
  all_goals rfl

/-- C5: every dict-returning stage has a fixed key set: on both the
guard-passing and the guard-failing path (and for the fallible stages, on
every non-raising path) the returned record's key list equals the stage's
fixed key list, so any two returned records of one stage have identical
keys. -/
theorem c5_schema_stability (e : Email) (gdv : List GdvRow) (acq : AcquisitionRec)
    (acqO : Option AcquisitionRec) (bcO : Option BuildCostRec) (pfO : Option ProfFeesRec)
    (stO : Option StatutoryRec) (devO : Option DevCostsRec) (finO : Option FinanceRec)
    (lenO : Option LendersRec) (fuO : Option FundingCostsRec) (seO : Option SellingRec)
    (tcO : Option TotalCostsRec) (tl : Option TimelineRec) (own : Option ℚ)
    (tm tu rent : ℚ) (fw : List (String × FundLine)) (npO : Option NetProfitRec)
    (ldO : Option LendingRec) (pdO : Option PostDevRec) (tmO : Option ℚ) :
    (deal_appraisal e).map keys = (deal_appraisal e).map (fun _ => dealAppraisalKeys)
    ∧ keys (acquisition_costs e) = acquisitionKeys
    ∧ keys (build_costs gdv acq) = buildCostKeys
    ∧ (professional_fees gdv acq bcO tm).map keys
        = (professional_fees gdv acq bcO tm).map (fun _ => profFeesKeys)
    ∧ keys (statutory_costs gdv) = statutoryKeys
    ∧ (total_development_costs bcO pfO stO).map keys
        = (total_development_costs bcO pfO stO).map (fun _ => devCostsKeys)
    ∧ (profit_pre_funding_costs gdv acqO devO).map keys
        = (profit_pre_funding_costs gdv acqO devO).map (fun _ => profitPreKeys)
    ∧ keys (finance_costs acqO devO tl) = financeKeys
    ∧ keys (lenders_other_costs tl) = lendersKeys
    ∧ keys (total_funding_costs finO lenO) = fundingCostsKeys
    ∧ keys (selling_costs gdv) = sellingKeys
    ∧ (total_costs acqO devO fuO seO).map keys
        = (total_costs acqO devO fuO seO).map (fun _ => totalCostsKeys)
    ∧ (net_profit_analysis gdv tcO).map keys
        = (net_profit_analysis gdv tcO).map (fun _ => netProfitKeys)
    ∧ (lending_analysis tcO gdv own).map keys
        = (lending_analysis tcO gdv own).map (fun _ => lendingKeys)
    ∧ keys (post_development_analysis gdv tu rent) = postDevKeys
    ∧ keys (funding_workings acqO devO stO fuO seO finO) = fundingWorkingsKeys
    ∧ keys (calculate_kpis e fw npO ldO pdO tmO) = kpisKeys :=
  ⟨keys_deal_appraisal e, keys_acquisition_costs e, keys_build_costs gdv acq,
   keys_professional_fees gdv acq bcO tm, keys_statutory_costs gdv,
   keys_total_development_costs bcO pfO stO,
   keys_profit_pre_funding_costs gdv acqO devO, keys_finance_costs acqO devO tl,
   keys_lenders_other_costs tl, keys_total_funding_costs finO lenO,
   keys_selling_costs gdv, keys_total_costs acqO devO fuO seO,
   keys_net_profit_analysis gdv tcO, keys_lending_analysis tcO gdv own,
   keys_post_development_analysis gdv tu rent,
   keys_funding_workings acqO devO stO fuO seO finO,
   keys_calculate_kpis e fw npO ldO pdO tmO⟩

/-! ### Claim C6 -/

/-- C6 (counterexample): with guard-passing inputs whose acquisition record
states a total (100) different from the sum of its components (0), the
`acquisition_costs_total` line of Funding Workings violates
`own + borrow = total`: the code copies the stated total instead of the sum
of the splits. -/
theorem c6_acq_total_line_unbalanced :
    (funding_workings (some acqInconsistent) (some devAllNull) (some statAllNull)
        (some fundAllNull) (some sellAllNull) (some finAllNull)).lookup
        "acquisition_costs_total" = some ⟨some 0, some 0, some 100⟩
    ∧ (0:ℚ) + 0 ≠ 100 := by
  refine ⟨?_, by norm_num⟩
  norm_num [funding_workings, acqInconsistent, devAllNull, statAllNull, fundAllNull,
    sellAllNull, finAllNull, or0, List.lookup]
  rfl

/-- C6 (amended): on guard-passing inputs whose acquisition record is
internally consistent (its `total_acquisition_costs` equals the sum of its
component fields, nulls coerced to 0 — as the `acquisition_costs` stage
always produces), every Funding Workings line satisfies
`own + borrow = total`, and the grand total's own/borrow components equal
the sums of the leaf lines' own/borrow values.  Without the consistency
hypothesis the `acquisition_costs_total` line fails, as the counterexample
shows. -/
theorem c6_funding_split_balances (acqd : AcquisitionRec) (devd : DevCostsRec)
    (statd : StatutoryRec) (fundd : FundingCostsRec) (selld : SellingRec)
    (find : FinanceRec)
    (hcons : or0 acqd.total_acquisition_costs
      = or0 acqd.asking_price + or0 acqd.stamp_duty + or0 acqd.sourcing_fee
        + or0 acqd.building_insurance + or0 acqd.legal_professional_costs) :
    (∀ p ∈ funding_workings (some acqd) (some devd) (some statd) (some fundd)
        (some selld) (some find),
      ∃ o b t, p.2 = FundLine.mk (some o) (some b) (some t) ∧ o + b = t)
    ∧ ∃ gt, (funding_workings (some acqd) (some devd) (some statd) (some fundd)
          (some selld) (some find)).lookup "total_costs" = some gt
        ∧ gt.own = some (leafOwnSum (funding_workings (some acqd) (some devd)
            (some statd) (some fundd) (some selld) (some find)))
        ∧ gt.borrow = some (leafBorrowSum (funding_workings (some acqd) (some devd)
            (some statd) (some fundd) (some selld) (some find))) := by
  constructor
  · intro p hp
    simp only [funding_workings, List.mem_cons, List.not_mem_nil, or_false] at hp
    rcases hp with rfl | rfl | rfl | rfl | rfl | rfl | rfl | rfl | rfl | rfl | rfl | rfl
    · exact ⟨_, _, _, rfl, by ring⟩
    · exact ⟨_, _, _, rfl, by ring⟩
    · exact ⟨_, _, _, rfl, by ring⟩
    · exact ⟨_, _, _, rfl, by ring⟩
    · exact ⟨_, _, _, rfl, by ring⟩
    · exact ⟨_, _, _, rfl, by linarith [hcons]⟩
    · exact ⟨_, _, _, rfl, by ring⟩
    · exact ⟨_, _, _, rfl, by ring⟩
    · exact ⟨_, _, _, rfl, by ring⟩
    · exact ⟨_, _, _, rfl, by ring⟩
    · exact ⟨_, _, _, rfl, by ring⟩
    · exact ⟨_, _, _, rfl, by ring⟩
  · refine ⟨_, rfl, ?_, ?_⟩
    · simp [funding_workings, leafOwnSum, leafKeys, List.lookup, or0]
      ring
    · simp [funding_workings, leafBorrowSum, leafKeys, List.lookup, or0]
      ring

/-- Witness for the amended C6 at concrete consistent records. -/
theorem c6_funding_split_balances_witness :
    (∀ p ∈ funding_workings (some acqConsistent) (some devBuild5Prof3) (some statTotal2)
        (some fundTotal6) (some sellTotal7) (some finLand4),
      ∃ o b t, p.2 = FundLine.mk (some o) (some b) (some t) ∧ o + b = t)
    ∧ ∃ gt, (funding_workings (some acqConsistent) (some devBuild5Prof3) (some statTotal2)
          (some fundTotal6) (some sellTotal7) (some finLand4)).lookup "total_costs"
            = some gt
        ∧ gt.own = some (leafOwnSum (funding_workings (some acqConsistent)
            (some devBuild5Prof3) (some statTotal2) (some fundTotal6) (some sellTotal7)
            (some finLand4)))
        ∧ gt.borrow = some (leafBorrowSum (funding_workings (some acqConsistent)
            (some devBuild5Prof3) (some statTotal2) (some fundTotal6) (some sellTotal7)
            (some finLand4))) :=
  c6_funding_split_balances acqConsistent devBuild5Prof3 statTotal2 fundTotal6
    sellTotal7 finLand4 (by norm_num [acqConsistent, or0])

/-! ### Claim C7 -/

/-- Half-even rounding moves its argument by at most half a unit. -/
theorem roundHalfEven_close (q : ℚ) : |(roundHalfEven q : ℚ) - q| ≤ 1/2 := by
  unfold roundHalfEven
  have h0 : ((⌊q⌋ : ℤ) : ℚ) ≤ q := Int.floor_le q
  have h1 : q < ((⌊q⌋ : ℤ) : ℚ) + 1 := Int.lt_floor_add_one q
  split_ifs with hlt hgt hev
  · rw [abs_sub_comm, abs_of_nonneg (by linarith)]
    linarith
  · rw [abs_of_nonneg (by push_cast; linarith)]
    push_cast
    linarith
  · rw [abs_sub_comm, abs_of_nonneg (by linarith)]
    linarith
  · push_cast
    rw [abs_of_nonneg (by linarith)]
    linarith

/-- `pyRound · 1` moves its argument by at most 1/20. -/
theorem pyRound_one_close (q : ℚ) : |pyRound q 1 - q| ≤ 1/20 := by
  have h := roundHalfEven_close (q * 10 ^ 1)
  have e : pyRound q 1 - q = ((roundHalfEven (q * 10 ^ 1) : ℚ) - q * 10 ^ 1) / 10 := by
    unfold pyRound
    ring
  rw [e, abs_div]
  have h10 : |(10:ℚ)| = 10 := by norm_num
  rw [h10]
  linarith

/-- C7 (counterexample): for an entry with only `area_sqft = 50`, the GDV
builder derives `area_m2 = round(50 × 0.092903, 1) = 4.6`, and the inverse
conversion gives `4.6 × 10.764 = 49.5144`, which differs from the original
50 by 0.4856 — far more than the claimed 0.1 tolerance. -/
theorem c7_area_roundtrip_exceeds_tolerance :
    (makeRow "Ground Floor" accomSqft50).average_sqm_per_unit = some 4.6
    ∧ ¬ (|(4.6:ℚ) * 10.764 - 50| ≤ 0.1) := by
  have hf : ⌊(50:ℚ) * 0.092903 * 10 ^ 1⌋ = 46 := by
    norm_num [Int.floor_eq_iff]
  constructor
  · simp only [makeRow, deriveAreas, accomSqft50]
    norm_num [truthy, pyRound, roundHalfEven, hf]
  · have e : (4.6:ℚ) * 10.764 - 50 = -0.4856 := by norm_num
    rw [e, abs_neg, abs_of_pos (by norm_num : (0:ℚ) < 0.4856)]
    norm_num

/-- C7 (amended): with only `area_sqft = s` present (`s` truthy), the
derived `area_m2` is `round(s × 0.092903, 1)` as claimed, but the inverse
conversion returns to within `0.5382 + |s| × 0.000007892` of the original —
half the 0.1 m² rounding granularity scaled by 10.764, plus the drift of the
non-inverse conversion pair — not within 0.1. -/
theorem c7_area_roundtrip_bound (ft : String) (a : Accom) (s : ℚ)
    (h1 : a.area_sqft = some s) (h2 : s ≠ 0) (h3 : a.area_m2 = none) :
    (makeRow ft a).average_sqm_per_unit = some (pyRound (s * 0.092903) 1)
    ∧ |pyRound (s * 0.092903) 1 * 10.764 - s| ≤ 0.5382 + |s| * 0.000007892 := by
  constructor
  · simp [makeRow, deriveAreas, truthy, h1, h2, h3]
  · have h := pyRound_one_close (s * 0.092903)
    have e : pyRound (s * 0.092903) 1 * 10.764 - s
        = (pyRound (s * 0.092903) 1 - s * 0.092903) * 10.764
          + s * (0.092903 * 10.764 - 1) := by ring
    rw [e]
    calc |(pyRound (s * 0.092903) 1 - s * 0.092903) * 10.764
            + s * (0.092903 * 10.764 - 1)|
        ≤ |(pyRound (s * 0.092903) 1 - s * 0.092903) * 10.764|
            + |s * (0.092903 * 10.764 - 1)| := abs_add _ _
      _ = |pyRound (s * 0.092903) 1 - s * 0.092903| * 10.764
            + |s| * 0.000007892 := by
          have habs1 : |(10.764:ℚ)| = 10.764 := abs_of_pos (by norm_num)
          have habs2 : |(0.092903:ℚ) * 10.764 - 1| = 0.000007892 := by
            rw [show (0.092903:ℚ) * 10.764 - 1 = 0.000007892 by norm_num]
            exact abs_of_pos (by norm_num)
          rw [abs_mul, abs_mul, habs1, habs2]
      _ ≤ (1/20) * 10.764 + |s| * 0.000007892 := by
          have := mul_le_mul_of_nonneg_right h (by norm_num : (0:ℚ) ≤ 10.764)
          linarith
      _ ≤ 0.5382 + |s| * 0.000007892 := by norm_num

/-- Witness for the amended C7 at the 50 sqft entry. -/
theorem c7_area_roundtrip_bound_witness :
    (makeRow "Ground Floor" accomSqft50).average_sqm_per_unit
        = some (pyRound (50 * 0.092903) 1)
    ∧ |pyRound ((50:ℚ) * 0.092903) 1 * 10.764 - 50|
        ≤ 0.5382 + |(50:ℚ)| * 0.000007892 :=
  c7_area_roundtrip_bound "Ground Floor" accomSqft50 50 rfl (by norm_num) rfl

/-! ### Claim C8 -/

/-- C8 (counterexample): with `price_per_unit` present with the value 0 and
`units = 5`, the GDV builder's row amount is null rather than `0 × 5 = 0`:
the truthiness test treats a present zero like a missing value, so "null
exactly when a field is missing" fails. -/
theorem c8_zero_price_yields_null_amount :
    accomZeroPrice.price_per_unit = some 0 ∧ accomZeroPrice.units = some 5
    ∧ (makeRow "Ground Floor" accomZeroPrice).amount = none :=
  ⟨rfl, rfl, rfl⟩

/-- C8 (amended): the row amount equals `price_per_unit × units` precisely
when both fields are present with non-zero (truthy) values, and is null
when either is missing or present with the value 0 (a missing `units`
defaults to 0). -/
theorem c8_amount_rule (ft : String) (a : Accom) :
    (∃ p u, a.price_per_unit = some p ∧ p ≠ 0 ∧ a.units = some u ∧ u ≠ 0
        ∧ (makeRow ft a).amount = some (p * u))
    ∨ ((truthy a.price_per_unit = false ∨ a.units.getD 0 = 0)
        ∧ (makeRow ft a).amount = none) := by
  rcases hp : a.price_per_unit with _ | p
  · exact Or.inr ⟨Or.inl (by simp [truthy, hp]), by simp [makeRow, hp]⟩
  · by_cases hp0 : p = 0
    · exact Or.inr ⟨Or.inl (by simp [truthy, hp, hp0]), by simp [makeRow, hp, hp0]⟩
    · rcases hu : a.units with _ | u
      · exact Or.inr ⟨Or.inr (by simp [hu]), by simp [makeRow, hp, hu]⟩
      · by_cases hu0 : u = 0
        · exact Or.inr ⟨Or.inr (by simp [hu, hu0]), by simp [makeRow, hp, hu, hu0]⟩
        · exact Or.inl ⟨p, u, rfl, hp0, rfl, hu0, by simp [makeRow, hp, hu, hp0, hu0]⟩

end Template
